import Mathlib

/-!
Verification development for two Theseus kernel components:

* `kernel/cpu_local_preemption/src/preemption.rs` — the per-CPU preemption
  counter, its guard type, and the APIC LVT timer edge control;
* `kernel/mod_mgmt/src/parse_nano_core.rs` — the nano_core self-description
  parser (textual symbol-file mode and ELF binary mode) together with its
  orchestrator `parse_nano_core`.

The Rust code is shallowly embedded: machine integers become `Nat` with
explicit wrap-around (`% 256` for `AtomicU8`, an explicit `< 2 ^ 64` bound
where `usize` overflow matters), fallible operations return `Except`/`Option`,
and the kernel-external collaborators (CPU id service, APIC driver, page-table
manager, frame allocator, module registry, namespace, demangler, the
`MappedPages` type and the `xmas_elf` reader) are modelled from the
specification as explicit inputs, since their Rust sources are not part of
this repository.  Panics (`panic!` / failed `assert!`) are modelled as an
explicit `panic` outcome.
-/

/-- Decidable equality for `Except` results, so that concrete runs of the
embedded functions can be checked by `decide`. -/
instance {ε : Type} {α : Type} [DecidableEq ε] [DecidableEq α] :
    DecidableEq (Except ε α) := fun a b =>
  match a, b with
  | Except.error e, Except.error f => decidable_of_iff (e = f) (by simp)
  | Except.error _, Except.ok _ => isFalse (by simp)
  | Except.ok _, Except.error _ => isFalse (by simp)
  | Except.ok x, Except.ok y => decidable_of_iff (x = y) (by simp)

namespace Theseus

/-! ### Per-CPU preemption control

Embedding of `kernel/cpu_local_preemption/src/preemption.rs`.

The per-CPU counter `PREEMPTION_COUNT` is an `AtomicU8`; we model the state of
one CPU as the counter value (a `Nat`, kept in `[0, 255]` by `% 256`
wrap-around exactly where the Rust `fetch_add`/`fetch_sub` wrap) together with
the list of `enable_lvt_timer` calls issued to the local APIC so far.  The
`with_preempt` accessor and the `NoDrop` placeholder guard have no observable
effect on this state (the placeholder's `cpu_id` is the current CPU, so its
internal assertion always passes) and are therefore not represented.
-/

/-- One call to `apic .. .enable_lvt_timer(b)` recorded in order. -/
inductive TimerEvent
  | enable (b : Bool)
deriving DecidableEq, Repr

/-- State of a single CPU: the preemption count plus the trace of APIC LVT
timer reconfigurations.  Rust's counter is an `AtomicU8`, so every reachable
`count` is `< 256`; arithmetic below wraps mod 256 exactly as `fetch_add` /
`fetch_sub` do. -/
structure PState where
  count : Nat
  events : List TimerEvent
deriving DecidableEq, Repr

/-- `PreemptionGuard { cpu_id, preemption_was_enabled }`. -/
structure PreemptionGuard where
  cpu_id : Nat
  preemption_was_enabled : Bool
deriving DecidableEq, Repr

/-- Result of a preemption operation: normal return, or a kernel panic
(`panic!` or a failed `assert!`), each with the state left behind. -/
inductive POutcome (α : Type)
  | ok (a : α) (s : PState)
  | panic (msg : String) (s : PState)
deriving DecidableEq, Repr

/-- `hold_preemption_internal::<DISABLE_TIMER>()`: fetch_add(1) on the per-CPU
counter, build the guard from the previous value, disable the LVT timer on a
0 -> 1 transition when `DISABLE_TIMER`, and panic on counter overflow
(previous value 255).  The panic message in the source interpolates the CPU
id; we keep the static prefix. -/
def holdPreemptionInternal (DISABLE_TIMER : Bool) (cpu_id : Nat) (s : PState) :
    POutcome PreemptionGuard :=
  let prev_val := s.count
  let count' := (s.count + 1) % 256
  let preemption_was_enabled := prev_val == 0
  let guard : PreemptionGuard := ⟨cpu_id, preemption_was_enabled⟩
  if DISABLE_TIMER && preemption_was_enabled then
    POutcome.ok guard ⟨count', s.events ++ [TimerEvent.enable false]⟩
  else if prev_val == 255 then
    POutcome.panic "BUG: Overflow occurred in the preemption counter for CPU"
      ⟨count', s.events⟩
  else
    POutcome.ok guard ⟨count', s.events⟩

/-- `hold_preemption()`. -/
def hold_preemption (cpu_id : Nat) (s : PState) : POutcome PreemptionGuard :=
  holdPreemptionInternal true cpu_id s

/-- `hold_preemption_no_timer_disable()`. -/
def hold_preemption_no_timer_disable (cpu_id : Nat) (s : PState) :
    POutcome PreemptionGuard :=
  holdPreemptionInternal false cpu_id s

/-- `impl Drop for PreemptionGuard`: assert the guard's CPU is the current
CPU (a mismatch panics before the counter is touched), fetch_sub(1), re-enable
the LVT timer on a 1 -> 0 transition, and panic on underflow (previous value
0).  Note that the drop code never reads `preemption_was_enabled`. -/
def dropGuard (g : PreemptionGuard) (current_cpu : Nat) (s : PState) :
    POutcome Unit :=
  if g.cpu_id != current_cpu then
    POutcome.panic
      "PreemptionGuard::drop(): BUG: CPU IDs did not match! This indicates an unexpected task migration across CPUs."
      s
  else
    let prev_val := s.count
    let count' := (s.count + 255) % 256
    if prev_val == 1 then
      POutcome.ok () ⟨count', s.events ++ [TimerEvent.enable true]⟩
    else if prev_val == 0 then
      POutcome.panic "BUG: Underflow occurred in the preemption counter for CPU"
        ⟨count', s.events⟩
    else
      POutcome.ok () ⟨count', s.events⟩

/-- `preemption_enabled()`: snapshot of `counter == 0`. -/
def preemption_enabled (s : PState) : Bool :=
  s.count == 0

/-- A guard acquisition (of either public variant) or a guard release, all on
one CPU.  The drop code reads nothing from the guard except its `cpu_id`
(which on a single CPU always matches), so releases need no further data. -/
inductive POp
  | hold (disableTimer : Bool)
  | release
deriving DecidableEq, Repr

/-- Run a sequence of acquisitions/releases on a single CPU, stopping at the
first panic. -/
def runOps (cpu : Nat) : List POp → PState → POutcome PState
  | [], s => POutcome.ok s s
  | POp.hold dt :: rest, s =>
    match holdPreemptionInternal dt cpu s with
    | POutcome.ok _ s' => runOps cpu rest s'
    | POutcome.panic m s' => POutcome.panic m s'
  | POp.release :: rest, s =>
    match dropGuard ⟨cpu, false⟩ cpu s with
    | POutcome.ok _ s' => runOps cpu rest s'
    | POutcome.panic m s' => POutcome.panic m s'

/-- Timer events of an outcome. -/
def POutcome.eventsOf : POutcome PState → List TimerEvent
  | POutcome.ok _ s => s.events
  | POutcome.panic _ s => s.events

/-- Whether an outcome is a normal return. -/
def POutcome.isOk {α : Type} : POutcome α → Bool
  | POutcome.ok _ _ => true
  | POutcome.panic _ _ => false

/-- The timer-call trace that claim C3 predicts for a trace of operations:
an `enable(false)` for EVERY acquisition (either variant) observing previous
counter value 0 and an `enable(true)` for every release observing previous
value 1. -/
def specEventsClaim : List POp → Nat → List TimerEvent
  | [], _ => []
  | POp.hold _ :: rest, c =>
    (if c = 0 then [TimerEvent.enable false] else []) ++ specEventsClaim rest (c + 1)
  | POp.release :: rest, c =>
    (if c = 1 then [TimerEvent.enable true] else []) ++ specEventsClaim rest (c - 1)

/-- The timer-call trace the source actually produces: `enable(false)` only
for a `hold_preemption` (timer-disabling) acquisition observing previous
value 0; `enable(true)` for every release observing previous value 1. -/
def codeEvents : List POp → Nat → List TimerEvent
  | [], _ => []
  | POp.hold dt :: rest, c =>
    (if dt ∧ c = 0 then [TimerEvent.enable false] else []) ++ codeEvents rest (c + 1)
  | POp.release :: rest, c =>
    (if c = 1 then [TimerEvent.enable true] else []) ++ codeEvents rest (c - 1)

/-! ### Rust string primitives

The textual symbol-file parser manipulates `&str` values through a small set
of Rust standard-library operations (`lines`, `trim`, `contains`, `find`,
`get`, `splitn` with a closure pattern, `split('#')`, `from_str_radix`,
`parse::<usize>`).  We embed them as structural recursions over `List Char`
(the character data of a Lean `String`), which lets every theorem below be
evaluated on concrete inputs.  `str::find` returns byte indices in Rust and
`str::get` takes byte ranges; we use character indices, which coincide for the
ASCII data these parsers consume. -/

/-- Rust `char::is_whitespace` (the Unicode `White_Space` property). -/
def rustIsWhitespace (c : Char) : Bool :=
  (0x09 ≤ c.toNat && c.toNat ≤ 0x0d) || c.toNat == 0x20 || c.toNat == 0x85 ||
  c.toNat == 0xa0 || c.toNat == 0x1680 || (0x2000 ≤ c.toNat && c.toNat ≤ 0x200a) ||
  c.toNat == 0x2028 || c.toNat == 0x2029 || c.toNat == 0x202f ||
  c.toNat == 0x205f || c.toNat == 0x3000

/-- Rust `str::trim`. -/
def rustTrim (l : List Char) : List Char :=
  ((l.dropWhile rustIsWhitespace).reverse.dropWhile rustIsWhitespace).reverse

/-- Rust `str::contains` with a literal pattern (substring search). -/
def containsSub (hay needle : List Char) : Bool :=
  match hay with
  | [] => needle.isEmpty
  | _ :: t => needle.isPrefixOf hay || containsSub t needle

/-- Rust `str::split` with a one-character literal pattern: pieces between
occurrences of `sep`, the separator removed. -/
def splitOnChar (sep : Char) : List Char → List (List Char)
  | [] => [[]]
  | c :: rest =>
    if c = sep then [] :: splitOnChar sep rest
    else
      match splitOnChar sep rest with
      | [] => [[c]]
      | p :: ps => (c :: p) :: ps

/-- Rust `str::lines`: split on `'\n'` (a trailing newline does not produce a
final empty line), then strip one trailing `'\r'` from each line. -/
def rustLines (l : List Char) : List (List Char) :=
  if l.isEmpty then []
  else
    let parts := splitOnChar '\n' l
    let parts :=
      match parts.getLast? with
      | some [] => parts.dropLast
      | _ => parts
    parts.map fun ln =>
      match ln.getLast? with
      | some c => if c = '\r' then ln.dropLast else ln
      | none => ln

/-- The stateful whitespace-coalescing split closure of
`parse_nano_core_symbol_file` combined with `str::splitn(n, ..)`: split at the
first whitespace character of each whitespace run (that character is removed;
the rest of the run stays glued to the following piece), stop after `n`
pieces, the `n`-th piece taking the remainder of the line verbatim.
`prevWs` is the closure's `prev_whitespace` flag (initially `true`), `acc`
the current piece reversed. -/
def rustSplitNWsAux (n : Nat) (prevWs : Bool) (acc : List Char) :
    List Char → List (List Char)
  | [] => [acc.reverse]
  | c :: rest =>
    if n ≤ 1 then [acc.reverse ++ (c :: rest)]
    else if rustIsWhitespace c then
      if prevWs then rustSplitNWsAux n true (c :: acc) rest
      else acc.reverse :: rustSplitNWsAux (n - 1) true [] rest
    else rustSplitNWsAux n false (c :: acc) rest

/-- `line.splitn(n, whitespace-coalescing closure)` as used for symbol-table
entries. -/
def rustSplitNWs (n : Nat) (l : List Char) : List (List Char) :=
  rustSplitNWsAux n true [] l

/-- Rust `char::to_digit(radix)`. -/
def charToDigit (radix : Nat) (c : Char) : Option Nat :=
  let v :=
    if '0' ≤ c ∧ c ≤ '9' then some (c.toNat - '0'.toNat)
    else if 'a' ≤ c ∧ c ≤ 'z' then some (c.toNat - 'a'.toNat + 10)
    else if 'A' ≤ c ∧ c ≤ 'Z' then some (c.toNat - 'A'.toNat + 10)
    else none
  match v with
  | some d => if d < radix then some d else none
  | none => none

/-- Rust `usize::from_str_radix(s, radix)` (also `str::parse::<usize>` for
radix 10): an optional leading `'+'`, then one or more digits of the radix;
the empty string, a stray character, or a value exceeding `usize` (64-bit
here) is an error.  Checking the bound once at the end is equivalent to
Rust's per-step overflow check because the accumulator is monotone. -/
def fromStrRadix (radix : Nat) (l : List Char) : Option Nat :=
  let l := match l with | '+' :: r => r | _ => l
  match l with
  | [] => none
  | _ =>
    (l.foldl (fun acc c => acc.bind fun a => (charToDigit radix c).map fun d => a * radix + d)
        (some 0)).bind
      fun v => if v < 2 ^ 64 then some v else none

/-! ### Bytes, UTF-8 and C strings

`parse_nano_core_symbol_file` reads the scratch mapping as raw bytes, wraps
them in a `CStr` and validates them as UTF-8.  `CStr::from_bytes_with_nul`
and `str::from_utf8` are standard-library collaborators; they are modelled
from their documented behaviour: the former requires exactly one NUL byte,
at the end; the latter accepts exactly the valid UTF-8 byte sequences
(rejecting overlong forms, surrogates and values above `0x10FFFF`). -/

/-- UTF-8 decoding of a byte list (the validation performed by Rust's
`str::from_utf8`, producing the decoded characters). -/
def utf8Decode : List UInt8 → Option (List Char)
  | [] => some []
  | b0 :: rest =>
    let n0 := b0.toNat
    if n0 < 0x80 then
      (utf8Decode rest).map fun cs => Char.ofNat n0 :: cs
    else if 0xc2 ≤ n0 ∧ n0 ≤ 0xdf then
      match rest with
      | [] => none
      | b1 :: rest1 =>
        let n1 := b1.toNat
        if 0x80 ≤ n1 ∧ n1 ≤ 0xbf then
          (utf8Decode rest1).map fun cs =>
            Char.ofNat ((n0 - 0xc0) * 64 + (n1 - 0x80)) :: cs
        else none
    else if 0xe0 ≤ n0 ∧ n0 ≤ 0xef then
      match rest with
      | b1 :: b2 :: rest2 =>
        let n1 := b1.toNat
        let n2 := b2.toNat
        let lo1 := if n0 = 0xe0 then 0xa0 else 0x80
        let hi1 := if n0 = 0xed then 0x9f else 0xbf
        if lo1 ≤ n1 ∧ n1 ≤ hi1 ∧ 0x80 ≤ n2 ∧ n2 ≤ 0xbf then
          (utf8Decode rest2).map fun cs =>
            Char.ofNat ((n0 - 0xe0) * 4096 + (n1 - 0x80) * 64 + (n2 - 0x80)) :: cs
        else none
      | _ => none
    else if 0xf0 ≤ n0 ∧ n0 ≤ 0xf4 then
      match rest with
      | b1 :: b2 :: b3 :: rest3 =>
        let n1 := b1.toNat
        let n2 := b2.toNat
        let n3 := b3.toNat
        let lo1 := if n0 = 0xf0 then 0x90 else 0x80
        let hi1 := if n0 = 0xf4 then 0x8f else 0xbf
        if lo1 ≤ n1 ∧ n1 ≤ hi1 ∧ 0x80 ≤ n2 ∧ n2 ≤ 0xbf ∧ 0x80 ≤ n3 ∧ n3 ≤ 0xbf then
          (utf8Decode rest3).map fun cs =>
            Char.ofNat
              ((n0 - 0xf0) * 262144 + (n1 - 0x80) * 4096 + (n2 - 0x80) * 64 + (n3 - 0x80)) :: cs
        else none
      | _ => none
    else none

/-- UTF-8 encoding of one character (used to build concrete byte inputs). -/
def utf8EncodeChar (c : Char) : List UInt8 :=
  let n := c.toNat
  if n < 0x80 then [UInt8.ofNat n]
  else if n < 0x800 then
    [UInt8.ofNat (0xc0 + n / 64), UInt8.ofNat (0x80 + n % 64)]
  else if n < 0x10000 then
    [UInt8.ofNat (0xe0 + n / 4096), UInt8.ofNat (0x80 + n / 64 % 64),
      UInt8.ofNat (0x80 + n % 64)]
  else
    [UInt8.ofNat (0xf0 + n / 262144), UInt8.ofNat (0x80 + n / 4096 % 64),
      UInt8.ofNat (0x80 + n / 64 % 64), UInt8.ofNat (0x80 + n % 64)]

/-- UTF-8 encoding of a character list. -/
def utf8Encode (l : List Char) : List UInt8 :=
  (l.map utf8EncodeChar).flatten

/-- Modelled from the spec and the std docs: `CStr::from_bytes_with_nul`
succeeds iff the bytes end with a NUL byte and contain no interior NUL; the
resulting C string holds the bytes without the terminator. -/
def cstrFromBytesWithNul (bs : List UInt8) : Option (List UInt8) :=
  match bs.getLast? with
  | some b => if b = 0 then (if bs.dropLast.contains 0 then none else some bs.dropLast) else none
  | none => none

/-! ### nano_core data model

Embedding of the data handled by `kernel/mod_mgmt/src/parse_nano_core.rs`.
`MappedPages` and `ModuleArea` live in the external `memory` crate and are
modelled from the spec; `LoadedCrate`/`LoadedSection` metadata keeps exactly
the fields the claims are about (the weak crate back-reference stored in every
section carries no information relevant to any claim and is omitted). -/

/-- Modelled from the spec: a `MappedPages` handle is an owning handle over a
virtually mapped region, consumed here only through `offset_of_address`, so a
start address and a size determine its observable behaviour.  Handle equality
in error-return theorems is equality of these values. -/
structure MappedPagesH where
  start_address : Nat
  size_in_bytes : Nat
deriving DecidableEq, Repr

/-- Modelled from the spec (§4.F): `MappedPages::offset_of_address` is `Some
(addr - start)` when the address lies inside the mapped range, else `None`. -/
def MappedPagesH.offset_of_address (mp : MappedPagesH) (addr : Nat) : Option Nat :=
  if mp.start_address ≤ addr ∧ addr < mp.start_address + mp.size_in_bytes then
    some (addr - mp.start_address)
  else none

/-- Modelled from the spec: a `ModuleArea` is consumed only for
`{start_address, size, name}`. -/
structure ModuleArea where
  start_address : Nat
  size : Nat
  name : String
deriving DecidableEq, Repr

/-- The `[text_pages, rodata_pages, data_pages]` array carried by every `Err`
of the nano_core parsers (the three `Arc<Mutex<MappedPages>>` handles). -/
structure PageHandles where
  text_pages : MappedPagesH
  rodata_pages : MappedPagesH
  data_pages : MappedPagesH
deriving DecidableEq, Repr

/-- `metadata::SectionType`. -/
inductive SectionType
  | Text
  | Rodata
  | Data
  | Bss
deriving DecidableEq, Repr

/-- `metadata::LoadedSection` as constructed by `LoadedSection::new(typ,
name, hash, pages, offset, vaddr, size, global, crate_backref)`; the weak
crate back-reference is omitted. -/
structure LoadedSection where
  typ : SectionType
  no_hash : String
  hash : Option String
  owning_pages : MappedPagesH
  offset : Nat
  virt_addr : Nat
  size : Nat
  global : Bool
deriving DecidableEq, Repr

/-- `metadata::LoadedCrate`.  The `sections: BTreeMap<usize, _>` is modelled
as the association list of `(section id, section)` pairs in insertion order;
ids only ever increase during a parse, so this order is also key order. -/
structure LoadedCrate where
  crate_name : String
  object_file : ModuleArea
  sections : List (Nat × LoadedSection)
  text_pages : MappedPagesH
  rodata_pages : MappedPagesH
  data_pages : MappedPagesH
deriving DecidableEq, Repr

/-- Outcome of processing one symbol-table line of the textual dump:
`skipNoCount` – the line is skipped via `continue` before the section counter
is bumped (`Ndx` not numeric, e.g. `ABS`); `noInsert` – no section is created
but `section_counter += 1` still runs (numeric `Ndx` matching none of the
four known sections); `insert` – a section is created under the current
counter value, then the counter is bumped. -/
inductive LineStep
  | skipNoCount
  | noInsert
  | insert (sec : LoadedSection)
deriving DecidableEq, Repr

/-! ### ELF reader model

`parse_nano_core_binary` reads the scratch mapping through the external
`xmas_elf` crate.  Modelled from the spec: an `ElfFile` exposes a section
list; each section exposes `get_type()`, `size()`, `flags()`,
`get_name(&elf_file)` and `get_data(&elf_file)`; a symbol-table entry exposes
`get_binding()`, `get_type()`, `value()`, `size()`, `shndx()` and
`get_name(&elf_file)`.  Fallible accessors keep their `Result` shape.

Throughout the parser embedding, error strings follow the source with the
apostrophes elided (`couldn't` becomes `couldnt`, quoted column names lose
their quotes) and the `{}` format arguments dropped, since this file's
character set excludes them; messages remain pairwise distinct exactly as in
the source. -/

/-- `xmas_elf::sections::ShType`, restricted to the constructors the parser
inspects. -/
inductive ShType
  | progBits
  | noBits
  | symTab
  | other
deriving DecidableEq, Repr

/-- `xmas_elf::symbol_table::Binding`, as needed: `Global` or anything else. -/
inductive SymBinding
  | global
  | nonGlobal
deriving DecidableEq, Repr

/-- `xmas_elf::symbol_table::Type`, as needed: `Func`, `Object`, or rest. -/
inductive SymType
  | func
  | object
  | otherType
deriving DecidableEq, Repr

/-- One symbol-table entry of the ELF file. -/
structure ElfSymEntry where
  binding : Except String SymBinding
  typ : Except String SymType
  value : Nat
  size : Nat
  shndx : Nat
  name : Except String String
deriving DecidableEq, Repr

/-- `SectionData`, as needed: a 64-bit symbol table or anything else. -/
inductive ElfSectionData
  | symbolTable64 (entries : List ElfSymEntry)
  | otherData
deriving DecidableEq, Repr

/-- One section-header entry of the ELF file. -/
structure ElfSection where
  shType : Except String ShType
  size : Nat
  flags : Nat
  name : Except String String
  data : Except String ElfSectionData
deriving DecidableEq, Repr

/-- The parsed ELF file: its section list in header order. -/
structure ElfFile where
  sections : List ElfSection
deriving DecidableEq, Repr

/-- `xmas_elf::sections::SHF_WRITE`. -/
def SHF_WRITE : Nat := 1

/-- `xmas_elf::sections::SHF_ALLOC`. -/
def SHF_ALLOC : Nat := 2

/-- `xmas_elf::sections::SHF_EXECINSTR`. -/
def SHF_EXECINSTR : Nat := 4

/-- The kernel-external collaborators of `parse_nano_core`, modelled from the
spec as one record of oracles: the module registry lookup, the page-table
variant, the page/frame allocators and `map_allocated_pages_to` (a success
yields the scratch mapping's byte contents), the namespace's `add_symbols`
count, `CowArc::lock_as_mut` availability on the freshly created crate, the
`ElfFile::new` parse of the mapping, and the demangler. -/
structure ParseEnv where
  module : Option ModuleArea
  pageTableActive : Bool
  allocatePagesOk : Bool
  frameAllocatorOk : Bool
  mapResult : Except String (List UInt8)
  addSymbols : List (Nat × LoadedSection) → Nat
  lockAsMutOk : Bool
  elfParse : Except String ElfFile
  demangle : String → String × Option String

/-! ### Textual symbol-file parser

Embedding of `parse_nano_core_symbol_file` and its helpers. -/

/-- The closure `parse_section_ndx`: extract the bracketed section index
`[N]` from a section-header line (`find` both brackets, take the text between
them, trim, parse as decimal). -/
def parse_section_ndx (l : List Char) : Option Nat :=
  match l.findIdx? (· == '['), l.findIdx? (· == ']') with
  | some o, some c =>
    if o + 1 ≤ c then fromStrRadix 10 (rustTrim ((l.drop (o + 1)).take (c - (o + 1))))
    else none
  | _, _ => none

/-- The section-header discovery pass: walk the lines, keep the latest
`parse_section_ndx` result for each of `.text`/`PROGBITS`,
`.data`/`PROGBITS`, `.rodata`/`PROGBITS` and `.bss`/`NOBITS` (in that match
order), and stop early once all four are `Some`.  State tuple order:
`(text, data, rodata, bss)` as declared in the source. -/
def findShndxs :
    List (List Char) → Option Nat × Option Nat × Option Nat × Option Nat →
      Option Nat × Option Nat × Option Nat × Option Nat
  | [], st => st
  | line :: rest, (t, d, r, b) =>
    let l := rustTrim line
    if l.isEmpty then findShndxs rest (t, d, r, b)
    else
      let st :=
        if containsSub l ".text".data && containsSub l "PROGBITS".data then
          (parse_section_ndx l, d, r, b)
        else if containsSub l ".data".data && containsSub l "PROGBITS".data then
          (t, parse_section_ndx l, r, b)
        else if containsSub l ".rodata".data && containsSub l "PROGBITS".data then
          (t, d, parse_section_ndx l, b)
        else if containsSub l ".bss".data && containsSub l "NOBITS".data then
          (t, d, r, parse_section_ndx l)
        else (t, d, r, b)
      if st.1.isSome && st.2.1.isSome && st.2.2.1.isSome && st.2.2.2.isSome then st
      else findShndxs rest st

/-- Splitting the `Name` column at `'#'`: the first token is the demangled
name, an optional second token the hash, and any further token is an error. -/
def splitNameHash (name_hash : List Char) : Except String (String × Option String) :=
  match splitOnChar '#' name_hash with
  | [] => Except.error "parse_nano_core_symbol_file(): Name column had extraneous # characters."
  | no_hash :: rest =>
    match rest with
    | [] => Except.ok (String.mk no_hash, none)
    | hash :: rest2 =>
      match rest2 with
      | [] => Except.ok (String.mk no_hash, some (String.mk hash))
      | _ =>
        Except.error
          "parse_nano_core_symbol_file(): Name column had multiple # characters, expected only one # as the hash separator!"

/-- The `Size` column parse: decimal first, else `sec_size.get(2..)` (the
first two characters removed unconditionally — `None` when the field is
shorter) parsed as hexadecimal. -/
def parseSecSize (l : List Char) : Option Nat :=
  match fromStrRadix 10 l with
  | some v => some v
  | none => if 2 ≤ l.length then fromStrRadix 16 (l.drop 2) else none

/-- The `Size` column parse as the specification words it: decimal first,
else hexadecimal with the literal prefix `0x` stripped when present.  Used
only to compare the spec's description against `parseSecSize`. -/
def parseSecSizeSpec (l : List Char) : Option Nat :=
  match fromStrRadix 10 l with
  | some v => some v
  | none =>
    match l with
    | '0' :: 'x' :: rest => fromStrRadix 16 rest
    | _ => fromStrRadix 16 l

/-- The body of the symbol-table loop for one line, after the
whitespace-coalesced `splitn(8, ..)`: fetch the eight columns (each absence
its own error), split the name at `'#'`, parse `Value` (hex), `Size`
(decimal-else-hex) and `Ndx` (decimal; not a number skips the line), then
classify against the four known section indices — in the order text, rodata,
data, bss — computing the offset inside the owning pages (bss sections live
in the data pages).  Every classified line and every line with an
unrecognized numeric `Ndx` consumes one section id. -/
def parseSymbolCols (text_pages rodata_pages data_pages : MappedPagesH)
    (text_shndx rodata_shndx data_shndx bss_shndx : Nat) (parts : List (List Char)) :
    Except String LineStep :=
  match parts.get? 0 with
  | none => Except.error "parse_nano_core_symbol_file(): couldnt get column 0 Num"
  | some _num =>
  match parts.get? 1 with
  | none => Except.error "parse_nano_core_symbol_file(): couldnt get column 1 Value"
  | some sec_vaddr_str =>
  match parts.get? 2 with
  | none => Except.error "parse_nano_core_symbol_file(): couldnt get column 2 Size"
  | some sec_size_str =>
  match parts.get? 3 with
  | none => Except.error "parse_nano_core_symbol_file(): couldnt get column 3 Type"
  | some _typ =>
  match parts.get? 4 with
  | none => Except.error "parse_nano_core_symbol_file(): couldnt get column 4 Bind"
  | some _bind =>
  match parts.get? 5 with
  | none => Except.error "parse_nano_core_symbol_file(): couldnt get column 5 Vis"
  | some _vis =>
  match parts.get? 6 with
  | none => Except.error "parse_nano_core_symbol_file(): couldnt get column 6 Ndx"
  | some sec_ndx_str =>
  match parts.get? 7 with
  | none => Except.error "parse_nano_core_symbol_file(): couldnt get column 7 Name"
  | some name_hash =>
  match splitNameHash name_hash with
  | Except.error e => Except.error e
  | Except.ok (no_hash, hash) =>
  match fromStrRadix 16 sec_vaddr_str with
  | none =>
    Except.error "parse_nano_core_symbol_file(): couldnt parse virtual address (value column)"
  | some sec_vaddr =>
  match parseSecSize sec_size_str with
  | none => Except.error "parse_nano_core_symbol_file(): couldnt parse size column"
  | some sec_size =>
  match fromStrRadix 10 sec_ndx_str with
  | none => Except.ok LineStep.skipNoCount
  | some sec_ndx =>
    if sec_ndx = text_shndx then
      match text_pages.offset_of_address sec_vaddr with
      | none => Except.error "nano_core text section wasnt covered by its mapped pages!"
      | some off =>
        Except.ok (LineStep.insert
          ⟨SectionType.Text, no_hash, hash, text_pages, off, sec_vaddr, sec_size, true⟩)
    else if sec_ndx = rodata_shndx then
      match rodata_pages.offset_of_address sec_vaddr with
      | none => Except.error "nano_core rodata section wasnt covered by its mapped pages!"
      | some off =>
        Except.ok (LineStep.insert
          ⟨SectionType.Rodata, no_hash, hash, rodata_pages, off, sec_vaddr, sec_size, true⟩)
    else if sec_ndx = data_shndx then
      match data_pages.offset_of_address sec_vaddr with
      | none => Except.error "nano_core data section wasnt covered by its mapped pages!"
      | some off =>
        Except.ok (LineStep.insert
          ⟨SectionType.Data, no_hash, hash, data_pages, off, sec_vaddr, sec_size, true⟩)
    else if sec_ndx = bss_shndx then
      match data_pages.offset_of_address sec_vaddr with
      | none => Except.error "nano_core bss section wasnt covered by its mapped pages!"
      | some off =>
        Except.ok (LineStep.insert
          ⟨SectionType.Bss, no_hash, hash, data_pages, off, sec_vaddr, sec_size, true⟩)
    else Except.ok LineStep.noInsert

/-- One raw symbol-table line: whitespace-coalesced `splitn(8, ..)`, each
piece trimmed, then `parseSymbolCols`. -/
def parseSymbolLine (text_pages rodata_pages data_pages : MappedPagesH)
    (text_shndx rodata_shndx data_shndx bss_shndx : Nat) (line : List Char) :
    Except String LineStep :=
  parseSymbolCols text_pages rodata_pages data_pages text_shndx rodata_shndx data_shndx
    bss_shndx ((rustSplitNWs 8 line).map rustTrim)

/-- The symbol-table loop: raw-empty lines are skipped, the first error
breaks out (discarding the sections accumulated so far, as the source's
`loop_result` then surfaces through `try_mp!`), otherwise sections accumulate
under the running `section_counter`. -/
def parseSymbolLines (text_pages rodata_pages data_pages : MappedPagesH)
    (text_shndx rodata_shndx data_shndx bss_shndx : Nat) :
    List (List Char) → List (Nat × LoadedSection) → Nat →
      Except String (List (Nat × LoadedSection))
  | [], sections, _ => Except.ok sections
  | line :: rest, sections, section_counter =>
    if line.isEmpty then
      parseSymbolLines text_pages rodata_pages data_pages text_shndx rodata_shndx
        data_shndx bss_shndx rest sections section_counter
    else
      match parseSymbolLine text_pages rodata_pages data_pages text_shndx rodata_shndx
          data_shndx bss_shndx line with
      | Except.error e => Except.error e
      | Except.ok LineStep.skipNoCount =>
        parseSymbolLines text_pages rodata_pages data_pages text_shndx rodata_shndx
          data_shndx bss_shndx rest sections section_counter
      | Except.ok LineStep.noInsert =>
        parseSymbolLines text_pages rodata_pages data_pages text_shndx rodata_shndx
          data_shndx bss_shndx rest sections (section_counter + 1)
      | Except.ok (LineStep.insert sec) =>
        parseSymbolLines text_pages rodata_pages data_pages text_shndx rodata_shndx
          data_shndx bss_shndx rest (sections ++ [(section_counter, sec)])
          (section_counter + 1)

/-- `parse_nano_core_symbol_file` after the NUL byte has been placed:
borrow the mapping as a byte slice of length `size`, wrap it as a C string,
validate UTF-8, discover the four section-header indices, skip to the line
starting with `Symbol table` plus two header lines, run the symbol-table
loop, and install the section map into the crate under exclusive access.
Every failure returns the error paired with the three page handles, exactly
as the source's `try_mp!` does. -/
def symbolFileAfterNull (env : ParseEnv) (bytes : List UInt8)
    (nano_core_object_file : ModuleArea)
    (text_pages rodata_pages data_pages : MappedPagesH) (size : Nat) :
    Except (String × PageHandles) LoadedCrate :=
  let h : PageHandles := ⟨text_pages, rodata_pages, data_pages⟩
  if size ≤ bytes.length then
    match cstrFromBytesWithNul (bytes.take size) with
    | none =>
      Except.error
        ("FromBytesWithNulError occurred when casting nano_core symbol memory to CStr", h)
    | some content =>
      match utf8Decode content with
      | none => Except.error ("Utf8Error occurred when parsing nano_core symbols CStr", h)
      | some symbol_str =>
        let lines := rustLines symbol_str
        -- state tuple `(text, data, rodata, bss)`; the four sequential
        -- `ok_or` checks are ordered text, rodata, data, bss
        match findShndxs lines (none, none, none, none) with
        | (none, _, _, _) =>
          Except.error ("parse_nano_core_symbol_file(): couldnt find .text section index", h)
        | (some _, _, none, _) =>
          Except.error ("parse_nano_core_symbol_file(): couldnt find .rodata section index", h)
        | (some _, none, some _, _) =>
          Except.error ("parse_nano_core_symbol_file(): couldnt find .data section index", h)
        | (some _, some _, some _, none) =>
          Except.error ("parse_nano_core_symbol_file(): couldnt find .bss section index", h)
        | (some text_shndx, some data_shndx, some rodata_shndx, some bss_shndx) =>
          let symLines :=
            (lines.dropWhile fun l => !("Symbol table".data.isPrefixOf l)).drop 2
          match parseSymbolLines text_pages rodata_pages data_pages text_shndx
              rodata_shndx data_shndx bss_shndx symLines [] 0 with
          | Except.error e => Except.error (e, h)
          | Except.ok sections =>
            if env.lockAsMutOk then
              Except.ok
                ⟨"nano_core", nano_core_object_file, sections, text_pages, rodata_pages,
                  data_pages⟩
            else
              Except.error
                ("BUG: parse_nano_core_symbol_file(): couldnt get exclusive mutable access to new_crate",
                  h)
  else Except.error ("MappedPages::as_slice_mut(): requested slice out of bounds", h)

/-- `parse_nano_core_symbol_file`: write the NUL terminator into the last
byte of the `size`-byte view of the scratch mapping (`as_type_mut(size - 1)`,
an error if the mapping is too small), then continue as
`symbolFileAfterNull`.  The orchestrator only calls this with
`size = module.size() + 1 ≥ 1`. -/
def parse_nano_core_symbol_file (env : ParseEnv) (mapped_pages : List UInt8)
    (nano_core_object_file : ModuleArea)
    (text_pages rodata_pages data_pages : MappedPagesH) (size : Nat) :
    Except (String × PageHandles) LoadedCrate :=
  let h : PageHandles := ⟨text_pages, rodata_pages, data_pages⟩
  if size - 1 < mapped_pages.length then
    symbolFileAfterNull env (mapped_pages.set (size - 1) 0) nano_core_object_file
      text_pages rodata_pages data_pages size
  else Except.error ("MappedPages::as_type_mut(): requested offset out of bounds", h)

/-! ### ELF binary parser

Embedding of `parse_nano_core_binary` and its two loops. -/

/-- Locating the symbol table: the first section whose `get_type()` is
`Ok(SymTab)`, its data fetched and matched against `SymbolTable64`; every
other outcome (no such section, `get_data` error, other data) collapses into
the stripped-file error, as in the source. -/
def symtabOf (elf_file : ElfFile) : Except String (List ElfSymEntry) :=
  let sssec := elf_file.sections.find? fun s =>
    match s.shType with
    | Except.ok ShType.symTab => true
    | _ => false
  match sssec with
  | none => Except.error "cannot load nano_core: no symbol table found. Was file stripped?"
  | some s =>
    match s.data with
    | Except.ok (ElfSectionData.symbolTable64 symtab) => Except.ok symtab
    | _ => Except.error "cannot load nano_core: no symbol table found. Was file stripped?"

/-- The section scan of `parse_nano_core_binary`: record the indices of the
non-empty `.text`/`.data`/`.rodata` PROGBITS sections and the non-empty
`.bss` NOBITS section, failing — via `try_break!`, which abandons the loop —
when such a section's flags, masked by `ALLOC|WRITE|EXECINSTR`, differ from
the expected combination.  Empty sections and sections whose name cannot be
read are skipped silently.  State tuple order: `(text, rodata, data, bss)`.
-/
def scanSections :
    List (Nat × ElfSection) → Option Nat × Option Nat × Option Nat × Option Nat →
      Except String (Option Nat × Option Nat × Option Nat × Option Nat)
  | [], st => Except.ok st
  | (shndx, sec) :: rest, (t, r, d, b) =>
    match sec.shType with
    | Except.ok ShType.progBits =>
      if sec.size = 0 then scanSections rest (t, r, d, b)
      else
        match sec.name with
        | Except.ok ".text" =>
          if !(sec.flags &&& (SHF_ALLOC ||| SHF_WRITE ||| SHF_EXECINSTR) ==
              SHF_ALLOC ||| SHF_EXECINSTR) then
            Except.error ".text section had wrong flags!"
          else scanSections rest (some shndx, r, d, b)
        | Except.ok ".data" =>
          if !(sec.flags &&& (SHF_ALLOC ||| SHF_WRITE ||| SHF_EXECINSTR) ==
              SHF_ALLOC ||| SHF_WRITE) then
            Except.error ".data section had wrong flags!"
          else scanSections rest (t, r, some shndx, b)
        | Except.ok ".rodata" =>
          if !(sec.flags &&& (SHF_ALLOC ||| SHF_WRITE ||| SHF_EXECINSTR) == SHF_ALLOC) then
            Except.error ".rodata section had wrong flags!"
          else scanSections rest (t, some shndx, d, b)
        | _ => scanSections rest (t, r, d, b)
    | Except.ok ShType.noBits =>
      if sec.size = 0 then scanSections rest (t, r, d, b)
      else
        match sec.name with
        | Except.ok ".bss" =>
          if !(sec.flags &&& (SHF_ALLOC ||| SHF_WRITE ||| SHF_EXECINSTR) ==
              SHF_ALLOC ||| SHF_WRITE) then
            Except.error ".bss section had wrong flags!"
          else scanSections rest (t, r, d, some shndx)
        | _ => scanSections rest (t, r, d, b)
    | _ => scanSections rest (t, r, d, b)

/-- The symbol-table walk of `parse_nano_core_binary`: admit entries with
`GLOBAL` binding and `Func`/`Object` type (silently skipping binding or type
read errors), read the name (a read error aborts the loop), demangle it, and
classify by `shndx` — in the order text, rodata, data, bss — against the four
recorded indices; an unrecognized index is skipped (log only) WITHOUT
consuming a section id, unlike the textual parser. -/
def buildBinSections (demangle : String → String × Option String)
    (text_pages rodata_pages data_pages : MappedPagesH)
    (text_shndx rodata_shndx data_shndx bss_shndx : Nat) :
    List ElfSymEntry → List (Nat × LoadedSection) → Nat →
      Except String (List (Nat × LoadedSection))
  | [], sections, _ => Except.ok sections
  | entry :: rest, sections, section_counter =>
    let next := fun (sections : List (Nat × LoadedSection)) (section_counter : Nat) =>
      buildBinSections demangle text_pages rodata_pages data_pages text_shndx
        rodata_shndx data_shndx bss_shndx rest sections section_counter
    match entry.binding with
    | Except.ok SymBinding.global =>
      match entry.typ with
      | Except.ok typ =>
        if typ = SymType.func ∨ typ = SymType.object then
          match entry.name with
          | Except.error e => Except.error e
          | Except.ok name =>
            let demangled := demangle name
            let sec_vaddr := entry.value
            let sec_size := entry.size
            let new_section : Except String (Option LoadedSection) :=
              if entry.shndx = text_shndx then
                match text_pages.offset_of_address sec_vaddr with
                | none => Except.error "nano_core text section wasnt covered by its mapped pages!"
                | some off =>
                  Except.ok (some ⟨SectionType.Text, demangled.1, demangled.2, text_pages,
                    off, sec_vaddr, sec_size, true⟩)
              else if entry.shndx = rodata_shndx then
                match rodata_pages.offset_of_address sec_vaddr with
                | none =>
                  Except.error "nano_core rodata section wasnt covered by its mapped pages!"
                | some off =>
                  Except.ok (some ⟨SectionType.Rodata, demangled.1, demangled.2, rodata_pages,
                    off, sec_vaddr, sec_size, true⟩)
              else if entry.shndx = data_shndx then
                match data_pages.offset_of_address sec_vaddr with
                | none => Except.error "nano_core data section wasnt covered by its mapped pages!"
                | some off =>
                  Except.ok (some ⟨SectionType.Data, demangled.1, demangled.2, data_pages,
                    off, sec_vaddr, sec_size, true⟩)
              else if entry.shndx = bss_shndx then
                match data_pages.offset_of_address sec_vaddr with
                | none => Except.error "nano_core bss section wasnt covered by its mapped pages!"
                | some off =>
                  Except.ok (some ⟨SectionType.Bss, demangled.1, demangled.2, data_pages,
                    off, sec_vaddr, sec_size, true⟩)
              else Except.ok none
            match new_section with
            | Except.error e => Except.error e
            | Except.ok none => next sections section_counter
            | Except.ok (some sec) =>
              next (sections ++ [(section_counter, sec)]) (section_counter + 1)
        else next sections section_counter
      | Except.error _ => next sections section_counter
    | _ => next sections section_counter

/-- `parse_nano_core_binary`: borrow the mapping as a byte slice, parse it as
ELF, require an unstripped file (a symbol table), scan the section headers
for the four known sections (surfacing a flags error before the
missing-section checks, whose order is text, rodata, data, bss), walk the
symbol table, and install the section map under exclusive access.  Every
failure returns the error paired with the three page handles. -/
def parse_nano_core_binary (env : ParseEnv) (mapped_pages : List UInt8)
    (nano_core_object_file : ModuleArea)
    (text_pages rodata_pages data_pages : MappedPagesH) (size_in_bytes : Nat) :
    Except (String × PageHandles) LoadedCrate :=
  let h : PageHandles := ⟨text_pages, rodata_pages, data_pages⟩
  if size_in_bytes ≤ mapped_pages.length then
    match env.elfParse with
    | Except.error e => Except.error (e, h)
    | Except.ok elf_file =>
      match symtabOf elf_file with
      | Except.error e => Except.error (e, h)
      | Except.ok symtab =>
        match scanSections elf_file.sections.enum (none, none, none, none) with
        | Except.error e => Except.error (e, h)
        | Except.ok (text_shndx, rodata_shndx, data_shndx, bss_shndx) =>
          match text_shndx with
          | none => Except.error ("couldnt find .text section in nano_core ELF", h)
          | some text_shndx =>
          match rodata_shndx with
          | none => Except.error ("couldnt find .rodata section in nano_core ELF", h)
          | some rodata_shndx =>
          match data_shndx with
          | none => Except.error ("couldnt find .data section in nano_core ELF", h)
          | some data_shndx =>
          match bss_shndx with
          | none => Except.error ("couldnt find .bss section in nano_core ELF", h)
          | some bss_shndx =>
          match buildBinSections env.demangle text_pages rodata_pages data_pages
              text_shndx rodata_shndx data_shndx bss_shndx symtab [] 0 with
          | Except.error e => Except.error (e, h)
          | Except.ok sections =>
            if env.lockAsMutOk then
              Except.ok
                ⟨"nano_core", nano_core_object_file, sections, text_pages, rodata_pages,
                  data_pages⟩
            else
              Except.error
                ("BUG: parse_nano_core_binary(): couldnt get exclusive mutable access to new_crate",
                  h)
  else Except.error ("MappedPages::as_slice(): requested slice out of bounds", h)

/-! ### Orchestrator -/

/-- `PARSE_NANO_CORE_SYMBOL_FILE`: compile-time choice of the parsing
technique; `true` selects the textual symbol-file parser. -/
def PARSE_NANO_CORE_SYMBOL_FILE : Bool := true

/-- `memory::EntryFlags::PRESENT` (x86_64 page-table bit 0). -/
def EntryFlags.PRESENT : Nat := 1

/-- `memory::EntryFlags::WRITABLE` (x86_64 page-table bit 1). -/
def EntryFlags.WRITABLE : Nat := 2

/-- Modelled from the spec: `kernel_config::memory::address_is_page_aligned`
on 4 KiB x86_64 pages. -/
def address_is_page_aligned (addr : Nat) : Bool :=
  addr % 4096 == 0

/-- The `(size, flags)` pair `parse_nano_core` chooses for the scratch
mapping: in textual-symbol mode one byte more than the module (room for the
NUL terminator) mapped `PRESENT | WRITABLE`; in ELF mode exactly the module
size mapped `PRESENT`. -/
def scratchSizeAndFlags (useSymbolFile : Bool) (moduleSize : Nat) : Nat × Nat :=
  if useSymbolFile then
    (moduleSize + 1, EntryFlags.PRESENT ||| EntryFlags.WRITABLE)
  else (moduleSize, EntryFlags.PRESENT)

/-- Observable side effects of one `parse_nano_core` run, in order: the
scratch mapping being established (with its byte size and entry flags), the
namespace call `add_symbols` (with its count), and the crate-tree insertion.
-/
inductive ParseEvent
  | mappedScratch (size flags : Nat)
  | addedSymbols (count : Nat)
  | insertedCrate (name : String)
deriving DecidableEq, Repr

/-- The `if PARSE_NANO_CORE_SYMBOL_FILE { parse_nano_core_symbol_file(..) }
else { parse_nano_core_binary(..) }` dispatch of `parse_nano_core`, with the
compile-time constant lifted into the parameter `useSymbolFile`. -/
def dispatchParser (useSymbolFile : Bool) (env : ParseEnv)
    (temp_module_mapping : List UInt8) (module : ModuleArea)
    (text_pages rodata_pages data_pages : MappedPagesH) (size : Nat) :
    Except (String × PageHandles) LoadedCrate :=
  if useSymbolFile then
    parse_nano_core_symbol_file env temp_module_mapping module text_pages rodata_pages
      data_pages size
  else
    parse_nano_core_binary env temp_module_mapping module text_pages rodata_pages
      data_pages size

/-- The body of `parse_nano_core`, with the compile-time constant
`PARSE_NANO_CORE_SYMBOL_FILE` lifted into the parameter `useSymbolFile`:
look up the `"__k_nano_core"` module, require page alignment, require the
`Active` page-table variant, allocate and map the scratch pages with the
mode-chosen size and flags, dispatch to the selected parser, then register
the sections with the default namespace and insert the crate as
`"nano_core"`.  Returns the source's `Result<usize, _>` paired with the trace
of side effects; every failure carries the three wrapped page handles. -/
def parse_nano_core_with (useSymbolFile : Bool) (env : ParseEnv)
    (text_pages rodata_pages data_pages : MappedPagesH) :
    Except (String × PageHandles) Nat × List ParseEvent :=
  let h : PageHandles := ⟨text_pages, rodata_pages, data_pages⟩
  match env.module with
  | none => (Except.error ("Couldnt find nano_core module", h), [])
  | some module =>
    if !address_is_page_aligned module.start_address then
      (Except.error ("nano_core module was not page aligned", h), [])
    else if env.pageTableActive then
      let sf := scratchSizeAndFlags useSymbolFile module.size
      if !env.allocatePagesOk then
        (Except.error ("couldnt allocate pages for nano_core module", h), [])
      else if !env.frameAllocatorOk then
        (Except.error ("couldnt get FRAME_ALLOCATOR", h), [])
      else
        match env.mapResult with
        | Except.error e => (Except.error (e, h), [])
        | Except.ok temp_module_mapping =>
          let events := [ParseEvent.mappedScratch sf.1 sf.2]
          match dispatchParser useSymbolFile env temp_module_mapping module text_pages
              rodata_pages data_pages sf.1 with
          | Except.error eh => (Except.error eh, events)
          | Except.ok new_crate_ref =>
            let new_syms := env.addSymbols new_crate_ref.sections
            (Except.ok new_syms,
              events ++ [ParseEvent.addedSymbols new_syms, ParseEvent.insertedCrate "nano_core"])
    else (Except.error ("couldnt get kernels active page table", h), [])

/-- `parse_nano_core` as compiled: the mode fixed by
`PARSE_NANO_CORE_SYMBOL_FILE`. -/
def parse_nano_core (env : ParseEnv)
    (text_pages rodata_pages data_pages : MappedPagesH) :
    Except (String × PageHandles) Nat × List ParseEvent :=
  parse_nano_core_with PARSE_NANO_CORE_SYMBOL_FILE env text_pages rodata_pages data_pages

/-! ### Concrete instances

Fixed page handles, a synthetic textual symbol file, a synthetic ELF file and
environments built from them; they feed the witnesses and counterexamples
below.  The textual input has four section-header lines (`.text` index 1,
`.rodata` 2, `.data` 3, `.bss` 4), the `Symbol table` marker, one column
header line, one entry whose numeric `Ndx` 9 matches no known section and one
`.text` entry at address `0x1000` of size 10. -/

/-- Text pages handle covering `[0x1000, 0x2000)`. -/
def tpW : MappedPagesH := ⟨4096, 4096⟩

/-- Rodata pages handle covering `[0x2000, 0x3000)`. -/
def rpW : MappedPagesH := ⟨8192, 4096⟩

/-- Data pages handle covering `[0x3000, 0x4000)`. -/
def dpW : MappedPagesH := ⟨12288, 4096⟩

/-- A synthetic textual symbol-file dump. -/
def c9text : String :=
  "[1] .text PROGBITS\n[2] .rodata PROGBITS\n[3] .data PROGBITS\n[4] .bss NOBITS\nSymbol table .symtab contains 2 entries:\nNum Value Size Type Bind Vis Ndx Name\n0: 1000 10 F G D 9 skipped\n1: 1000 10 F G D 1 kept\n"

/-- The module bytes for the textual dump: its UTF-8 encoding plus the spare
byte (205 content bytes + 1 = 206 mapped bytes). -/
def c9bytes : List UInt8 := utf8Encode c9text.data ++ [0]

/-- The nano_core module area backing `c9bytes` (page-aligned start, size one
less than the scratch mapping). -/
def mTextual : ModuleArea := ⟨40960, 205, "k#nano_core"⟩

/-- Environment for textual-mode runs over `c9bytes`. -/
def envTextual : ParseEnv :=
  { module := some mTextual
    pageTableActive := true
    allocatePagesOk := true
    frameAllocatorOk := true
    mapResult := Except.ok c9bytes
    addSymbols := fun secs => secs.length
    lockAsMutOk := true
    elfParse := Except.error "not an ELF file"
    demangle := fun s => (s, none) }

/-- A synthetic ELF file whose `.text` section carries flags
`ALLOC | EXECINSTR | 0x10` (the extra bit is `SHF_MERGE`): not exactly
`ALLOC | EXECINSTR`, yet accepted by the masked comparison of the source. -/
def cexElf : ElfFile :=
  ⟨[⟨Except.ok ShType.symTab, 1, 0, Except.ok ".symtab",
      Except.ok (ElfSectionData.symbolTable64 [])⟩,
    ⟨Except.ok ShType.progBits, 1, 22, Except.ok ".text", Except.ok ElfSectionData.otherData⟩,
    ⟨Except.ok ShType.progBits, 1, 2, Except.ok ".rodata", Except.ok ElfSectionData.otherData⟩,
    ⟨Except.ok ShType.progBits, 1, 3, Except.ok ".data", Except.ok ElfSectionData.otherData⟩,
    ⟨Except.ok ShType.noBits, 1, 3, Except.ok ".bss", Except.ok ElfSectionData.otherData⟩]⟩

/-- Environment for ELF-mode runs over `cexElf` (an empty scratch mapping
suffices, since the ELF reader is an oracle on it). -/
def envElf : ParseEnv :=
  { envTextual with elfParse := Except.ok cexElf, mapResult := Except.ok [] }

/-- Environment in which the kernel page table is not the `Active` variant.
-/
def envInactive : ParseEnv := { envTextual with pageTableActive := false }

/-! ### Helper lemmas: error propagation with the page handles -/

/-- Every error of `symbolFileAfterNull` carries the three page handles. -/
theorem symbolFileAfterNull_err (env : ParseEnv) (bytes : List UInt8) (m : ModuleArea)
    (tp rp dp : MappedPagesH) (size : Nat) (e : String) (h : PageHandles)
    (hEq : symbolFileAfterNull env bytes m tp rp dp size = Except.error (e, h)) :
    h = ⟨tp, rp, dp⟩ := by
  revert hEq
  unfold symbolFileAfterNull
  dsimp only
  repeat' split
  all_goals intro hEq
  all_goals simp_all

/-- Every error of `parse_nano_core_symbol_file` carries the three page
handles. -/
theorem parse_nano_core_symbol_file_err (env : ParseEnv) (bytes : List UInt8)
    (m : ModuleArea) (tp rp dp : MappedPagesH) (size : Nat) (e : String)
    (h : PageHandles)
    (hEq : parse_nano_core_symbol_file env bytes m tp rp dp size = Except.error (e, h)) :
    h = ⟨tp, rp, dp⟩ := by
  unfold parse_nano_core_symbol_file at hEq
  split at hEq
  · exact symbolFileAfterNull_err env _ m tp rp dp size e h hEq
  · simp_all

/-- Every error of `parse_nano_core_binary` carries the three page handles. -/
theorem parse_nano_core_binary_err (env : ParseEnv) (bytes : List UInt8)
    (m : ModuleArea) (tp rp dp : MappedPagesH) (size : Nat) (e : String)
    (h : PageHandles)
    (hEq : parse_nano_core_binary env bytes m tp rp dp size = Except.error (e, h)) :
    h = ⟨tp, rp, dp⟩ := by
  revert hEq
  unfold parse_nano_core_binary
  dsimp only
  repeat' split
  all_goals intro hEq
  all_goals simp_all

/-- Every error of the parser dispatch carries the three page handles. -/
theorem dispatchParser_err (useSymbolFile : Bool) (env : ParseEnv) (bytes : List UInt8)
    (m : ModuleArea) (tp rp dp : MappedPagesH) (size : Nat) (e : String) (h : PageHandles)
    (hEq : dispatchParser useSymbolFile env bytes m tp rp dp size = Except.error (e, h)) :
    h = ⟨tp, rp, dp⟩ := by
  unfold dispatchParser at hEq
  cases useSymbolFile
  · exact parse_nano_core_binary_err env bytes m tp rp dp size e h (by simpa using hEq)
  · exact parse_nano_core_symbol_file_err env bytes m tp rp dp size e h (by simpa using hEq)

/-- Every error of the orchestrator body carries the three page handles. -/
theorem parse_nano_core_with_err (useSymbolFile : Bool) (env : ParseEnv)
    (tp rp dp : MappedPagesH) (e : String) (h : PageHandles)
    (hEq : (parse_nano_core_with useSymbolFile env tp rp dp).1 = Except.error (e, h)) :
    h = ⟨tp, rp, dp⟩ := by
  revert hEq
  unfold parse_nano_core_with
  dsimp only
  repeat' split
  all_goals intro hEq
  all_goals try simp_all
  all_goals
    rename_i heq
    exact dispatchParser_err useSymbolFile env _ _ tp rp dp _ e h heq

/-! ### Helper lemmas: preemption -/

/-- Behaviour of the internal acquisition routine below the overflow bound:
counter incremented by one, guard recording the CPU and the 0-transition,
timer-disable call exactly on a timer-disabling 0-transition. -/
theorem holdPI_ok (dt : Bool) (cpu : Nat) (s : PState) (hlt : s.count < 255) :
    holdPreemptionInternal dt cpu s =
      POutcome.ok ⟨cpu, s.count == 0⟩
        ⟨s.count + 1,
          s.events ++ if dt ∧ s.count = 0 then [TimerEvent.enable false] else []⟩ := by
  have hmod : (s.count + 1) % 256 = s.count + 1 := Nat.mod_eq_of_lt (by omega)
  have h255 : (s.count == 255) = false := by simp; omega
  unfold holdPreemptionInternal
  by_cases h0 : s.count = 0 <;> cases dt <;> simp [h0, h255, hmod]

/-- Acquisition at counter value 255 panics with the overflow bug (for either
value of the timer flag, since a previous value of 255 is never a
0-transition). -/
theorem holdPI_overflow (dt : Bool) (cpu : Nat) (s : PState) (h255 : s.count = 255) :
    holdPreemptionInternal dt cpu s =
      POutcome.panic "BUG: Overflow occurred in the preemption counter for CPU"
        ⟨0, s.events⟩ := by
  unfold holdPreemptionInternal
  cases dt <;> simp [h255]

/-- Behaviour of guard release on the right CPU with a positive counter:
counter decremented by one, timer re-enable call exactly on the 1 -> 0
transition. -/
theorem dropGuard_ok (g : PreemptionGuard) (cpu : Nat) (s : PState)
    (hcpu : g.cpu_id = cpu) (h1 : 1 ≤ s.count) (hub : s.count < 256) :
    dropGuard g cpu s =
      POutcome.ok ()
        ⟨s.count - 1, s.events ++ if s.count = 1 then [TimerEvent.enable true] else []⟩ := by
  have hmod : (s.count + 255) % 256 = s.count - 1 := by omega
  have h0 : (s.count == 0) = false := by simp; omega
  unfold dropGuard
  by_cases hone : s.count = 1 <;> simp [hcpu, hone, h0, hmod]

/-- Release at counter value 0 (on the right CPU) panics with the underflow
bug; the wrapped `fetch_sub` leaves the counter at 255. -/
theorem dropGuard_underflow (g : PreemptionGuard) (cpu : Nat) (s : PState)
    (hcpu : g.cpu_id = cpu) (h0 : s.count = 0) :
    dropGuard g cpu s =
      POutcome.panic "BUG: Underflow occurred in the preemption counter for CPU"
        ⟨255, s.events⟩ := by
  unfold dropGuard
  simp [hcpu, h0]

/-- Release on a different CPU than the guard records panics before the
counter is decremented: the state is returned untouched. -/
theorem dropGuard_mismatch (g : PreemptionGuard) (cpu : Nat) (s : PState)
    (hcpu : g.cpu_id ≠ cpu) :
    dropGuard g cpu s =
      POutcome.panic
        "PreemptionGuard::drop(): BUG: CPU IDs did not match! This indicates an unexpected task migration across CPUs."
        s := by
  unfold dropGuard
  simp [hcpu]

/-! ### Claims C2, C3, C4 -/

/-- Claim C2: for every call to `hold_preemption()` or
`hold_preemption_no_timer_disable()` whose atomic increment observes a
previous counter value `p < 255`, the per-CPU counter is incremented by
exactly 1, the returned guard records the current CPU id and
`preemption_was_enabled = (p == 0)`, and the APIC LVT timer is disabled if
and only if the call is `hold_preemption()` and `p == 0`. -/
theorem claim_C2 (cpu : Nat) (s : PState) (hlt : s.count < 255) :
    hold_preemption cpu s =
      POutcome.ok ⟨cpu, s.count == 0⟩
        ⟨s.count + 1,
          s.events ++ if s.count = 0 then [TimerEvent.enable false] else []⟩ ∧
    hold_preemption_no_timer_disable cpu s =
      POutcome.ok ⟨cpu, s.count == 0⟩ ⟨s.count + 1, s.events⟩ := by
  constructor
  · rw [hold_preemption, holdPI_ok true cpu s hlt]
    simp
  · rw [hold_preemption_no_timer_disable, holdPI_ok false cpu s hlt]
    simp

/-- Witness for claim C2 at a concrete state: first acquisition on CPU 0
from an enabled state disables the timer; a lightweight acquisition at
counter 3 only bumps the counter. -/
theorem claim_C2_witness :
    hold_preemption 0 ⟨0, []⟩ =
      POutcome.ok ⟨0, true⟩ ⟨1, [TimerEvent.enable false]⟩ ∧
    hold_preemption_no_timer_disable 0 ⟨3, []⟩ =
      POutcome.ok ⟨0, false⟩ ⟨4, []⟩ := by
  constructor
  · simpa using (claim_C2 0 ⟨0, []⟩ (by decide)).1
  · simpa using (claim_C2 0 ⟨3, []⟩ (by decide)).2

/-- Counterexample to claim C3 as stated: the claim predicts an
`enable_lvt_timer(false)` for EVERY acquisition observing previous counter
value 0, including the `hold_preemption_no_timer_disable` variant; but a
lightweight acquisition from the enabled state followed by a release
produces only the release's `enable_lvt_timer(true)` — the code never issues
the disable call for the lightweight variant. -/
theorem claim_C3_counterexample :
    (runOps 0 [POp.hold false, POp.release] ⟨0, []⟩).eventsOf =
      [TimerEvent.enable true] ∧
    specEventsClaim [POp.hold false, POp.release] 0 =
      [TimerEvent.enable false, TimerEvent.enable true] ∧
    (runOps 0 [POp.hold false, POp.release] ⟨0, []⟩).eventsOf ≠
      specEventsClaim [POp.hold false, POp.release] 0 := by decide

/-- Claim C3 as amended: for every panic-free sequence of guard acquisitions
and releases on a single CPU, `enable_lvt_timer(false)` is called exactly
when a `hold_preemption` (timer-disabling) acquisition observes previous
value 0 — a `hold_preemption_no_timer_disable` acquisition never touches the
timer — `enable_lvt_timer(true)` is called exactly when a release observes
previous value 1, and no other acquisition or release touches the timer
(`codeEvents` records precisely these toggles). -/
theorem claim_C3 (cpu : Nat) (ops : List POp) (s s' : PState) (hinv : s.count < 256)
    (h : runOps cpu ops s = POutcome.ok s' s') :
    s'.events = s.events ++ codeEvents ops s.count := by
  induction ops generalizing s with
  | nil =>
    simp only [runOps] at h
    cases h
    simp [codeEvents]
  | cons op rest ih =>
    cases op with
    | hold dt =>
      by_cases h255 : s.count = 255
      · simp only [runOps, holdPI_overflow dt cpu s h255] at h
        exact POutcome.noConfusion h
      · have hlt : s.count < 255 := by omega
        simp only [runOps, holdPI_ok dt cpu s hlt] at h
        have := ih ⟨s.count + 1, s.events ++ _⟩ (by simp; omega) h
        simp only [this, codeEvents, List.append_assoc]
    | release =>
      by_cases h0 : s.count = 0
      · simp only [runOps, dropGuard_underflow ⟨cpu, false⟩ cpu s rfl h0] at h
        exact POutcome.noConfusion h
      · have h1 : 1 ≤ s.count := by omega
        simp only [runOps, dropGuard_ok ⟨cpu, false⟩ cpu s rfl h1 hinv] at h
        have := ih ⟨s.count - 1, s.events ++ _⟩ (by simp; omega) h
        simp only [this, codeEvents, List.append_assoc]

/-- Witness for the amended claim C3 on the nested scenario of the spec:
`hold_preemption`, `hold_preemption`, release, release from the enabled
state produces exactly one `enable_lvt_timer(false)` followed by exactly one
`enable_lvt_timer(true)`. -/
theorem claim_C3_witness :
    (⟨0, [TimerEvent.enable false, TimerEvent.enable true]⟩ : PState).events =
      ([] : List TimerEvent) ++
        codeEvents [POp.hold true, POp.hold true, POp.release, POp.release] 0 :=
  claim_C3 0 [POp.hold true, POp.hold true, POp.release, POp.release] ⟨0, []⟩
    ⟨0, [TimerEvent.enable false, TimerEvent.enable true]⟩ (by decide) (by decide)

/-- Claim C4: an acquisition (either variant) observing previous value 255
panics with the overflow bug — 255 nested acquisitions on one CPU starting
from the enabled state succeed (reaching counter 255) and the 256th aborts;
dropping a guard whose decrement observes previous value 0 panics with the
underflow bug; and dropping a guard on a CPU other than the one it records
panics before the counter is decremented (the state is untouched). -/
theorem claim_C4 (dt : Bool) (cpu current : Nat) (g : PreemptionGuard) (s : PState) :
    (s.count = 255 → holdPreemptionInternal dt cpu s =
      POutcome.panic "BUG: Overflow occurred in the preemption counter for CPU"
        ⟨0, s.events⟩) ∧
    runOps 0 (List.replicate 255 (POp.hold true)) ⟨0, []⟩ =
      POutcome.ok ⟨255, [TimerEvent.enable false]⟩ ⟨255, [TimerEvent.enable false]⟩ ∧
    runOps 0 (List.replicate 256 (POp.hold true)) ⟨0, []⟩ =
      POutcome.panic "BUG: Overflow occurred in the preemption counter for CPU"
        ⟨0, [TimerEvent.enable false]⟩ ∧
    (g.cpu_id = current → s.count = 0 → dropGuard g current s =
      POutcome.panic "BUG: Underflow occurred in the preemption counter for CPU"
        ⟨255, s.events⟩) ∧
    (g.cpu_id ≠ current → dropGuard g current s =
      POutcome.panic
        "PreemptionGuard::drop(): BUG: CPU IDs did not match! This indicates an unexpected task migration across CPUs."
        s) :=
  ⟨holdPI_overflow dt cpu s,
   by set_option maxRecDepth 600000 in decide,
   by set_option maxRecDepth 600000 in decide,
   fun hcpu h0 => dropGuard_underflow g current s hcpu h0,
   fun hcpu => dropGuard_mismatch g current s hcpu⟩

/-- Witness for claim C4 at concrete inputs: overflow at counter 255,
underflow at counter 0, and a cross-CPU drop leaving the state untouched. -/
theorem claim_C4_witness :
    holdPreemptionInternal true 0 ⟨255, []⟩ =
      POutcome.panic "BUG: Overflow occurred in the preemption counter for CPU" ⟨0, []⟩ ∧
    dropGuard ⟨0, false⟩ 0 ⟨0, []⟩ =
      POutcome.panic "BUG: Underflow occurred in the preemption counter for CPU"
        ⟨255, []⟩ ∧
    dropGuard ⟨1, false⟩ 0 ⟨5, []⟩ =
      POutcome.panic
        "PreemptionGuard::drop(): BUG: CPU IDs did not match! This indicates an unexpected task migration across CPUs."
        ⟨5, []⟩ :=
  ⟨(claim_C4 true 0 0 ⟨0, false⟩ ⟨255, []⟩).1 rfl,
   (claim_C4 true 0 0 ⟨0, false⟩ ⟨0, []⟩).2.2.2.1 rfl rfl,
   (claim_C4 true 0 0 ⟨1, false⟩ ⟨5, []⟩).2.2.2.2 (by decide)⟩

/-! ### Claims C1, C5, C10 -/

/-- Claim C1: for every invocation of `parse_nano_core` (in either parse
mode) and of the inner parsers `parse_nano_core_symbol_file` and
`parse_nano_core_binary` that fails, the returned `Err` value carries the
three shared page handles `[text_pages, rodata_pages, data_pages]` back to
the caller; every failure path, without exception, returns these three
handles intact. -/
theorem claim_C1 (useSymbolFile : Bool) (env : ParseEnv) (bytes : List UInt8)
    (m : ModuleArea) (tp rp dp : MappedPagesH) (size : Nat) (e : String)
    (h : PageHandles) :
    ((parse_nano_core_with useSymbolFile env tp rp dp).1 = Except.error (e, h) →
      h = ⟨tp, rp, dp⟩) ∧
    (parse_nano_core_symbol_file env bytes m tp rp dp size = Except.error (e, h) →
      h = ⟨tp, rp, dp⟩) ∧
    (parse_nano_core_binary env bytes m tp rp dp size = Except.error (e, h) →
      h = ⟨tp, rp, dp⟩) :=
  ⟨parse_nano_core_with_err useSymbolFile env tp rp dp e h,
   parse_nano_core_symbol_file_err env bytes m tp rp dp size e h,
   parse_nano_core_binary_err env bytes m tp rp dp size e h⟩

/-- Witness for claim C1 on three concrete failures: a missing module (the
orchestrator), an empty textual mapping (the NUL write cannot be placed),
and a stripped ELF (no symbol table); each returned error carries exactly
`[tpW, rpW, dpW]`. -/
theorem claim_C1_witness :
    ((⟨tpW, rpW, dpW⟩ : PageHandles) = ⟨tpW, rpW, dpW⟩) ∧
    ((⟨tpW, rpW, dpW⟩ : PageHandles) = ⟨tpW, rpW, dpW⟩) ∧
    ((⟨tpW, rpW, dpW⟩ : PageHandles) = ⟨tpW, rpW, dpW⟩) :=
  ⟨(claim_C1 true { envTextual with module := none } [] mTextual tpW rpW dpW 1
      "Couldnt find nano_core module" ⟨tpW, rpW, dpW⟩).1 (by decide),
   (claim_C1 true envTextual [] mTextual tpW rpW dpW 1
      "MappedPages::as_type_mut(): requested offset out of bounds" ⟨tpW, rpW, dpW⟩).2.1
     (by decide),
   (claim_C1 true { envTextual with elfParse := Except.ok ⟨[]⟩ } [] mTextual tpW rpW dpW 0
      "cannot load nano_core: no symbol table found. Was file stripped?"
      ⟨tpW, rpW, dpW⟩).2.2 (by decide)⟩

/-- Claim C5: `parse_nano_core` sizes and flags the scratch mapping by parse
mode — textual mode maps `module.size() + 1` bytes `PRESENT | WRITABLE`, ELF
mode maps exactly `module.size()` bytes `PRESENT` — and the textual parser
then writes a 0 byte at offset `size - 1` of the mapping before interpreting
the bytes (so the remaining interpretation only ever sees the NUL-terminated
buffer). -/
theorem claim_C5 (msize : Nat) (env : ParseEnv) (m : ModuleArea) (bytes : List UInt8)
    (tp rp dp : MappedPagesH) (size : Nat)
    (henv : env.module = some m) (hal : address_is_page_aligned m.start_address = true)
    (hact : env.pageTableActive = true) (halloc : env.allocatePagesOk = true)
    (hframe : env.frameAllocatorOk = true) (hlen : size - 1 < bytes.length) :
    scratchSizeAndFlags true msize =
      (msize + 1, EntryFlags.PRESENT ||| EntryFlags.WRITABLE) ∧
    scratchSizeAndFlags false msize = (msize, EntryFlags.PRESENT) ∧
    (∀ mode : Bool, env.mapResult = Except.ok bytes →
      (parse_nano_core_with mode env tp rp dp).2.head? =
        some (ParseEvent.mappedScratch (scratchSizeAndFlags mode m.size).1
          (scratchSizeAndFlags mode m.size).2)) ∧
    parse_nano_core_symbol_file env bytes m tp rp dp size =
      symbolFileAfterNull env (bytes.set (size - 1) 0) m tp rp dp size := by
  refine ⟨rfl, rfl, ?_, ?_⟩
  · intro mode hmap
    unfold parse_nano_core_with
    rw [henv]
    simp only [hal, hact, halloc, hframe, hmap, Bool.not_true, Bool.false_eq_true,
      if_false]
    repeat' split
    all_goals simp_all
  · unfold parse_nano_core_symbol_file
    rw [if_pos hlen]

set_option maxRecDepth 100000 in
/-- Witness for claim C5 on the concrete textual environment: the scratch
mapping event records 206 bytes with flags `PRESENT | WRITABLE = 3`, and the
NUL write factors through `symbolFileAfterNull`. -/
theorem claim_C5_witness :
    scratchSizeAndFlags true 205 =
      (206, EntryFlags.PRESENT ||| EntryFlags.WRITABLE) ∧
    scratchSizeAndFlags false 205 = (205, EntryFlags.PRESENT) ∧
    (∀ mode : Bool, envTextual.mapResult = Except.ok c9bytes →
      (parse_nano_core_with mode envTextual tpW rpW dpW).2.head? =
        some (ParseEvent.mappedScratch (scratchSizeAndFlags mode mTextual.size).1
          (scratchSizeAndFlags mode mTextual.size).2)) ∧
    parse_nano_core_symbol_file envTextual c9bytes mTextual tpW rpW dpW 206 =
      symbolFileAfterNull envTextual (c9bytes.set 205 0) mTextual tpW rpW dpW 206 :=
  claim_C5 205 envTextual mTextual c9bytes tpW rpW dpW 206 rfl (by decide) rfl rfl rfl
    (by decide)

/-- Claim C10 (implicit): when the kernel page table is not the `Active`
variant, `parse_nano_core` — having found the module and checked its
alignment — returns `Err` with message `couldn't get kernel's active page
table` (apostrophes elided here) together with the three page handles,
without establishing the scratch mapping, invoking a parser, or touching the
namespace (its side-effect trace is empty). -/
theorem claim_C10 (env : ParseEnv) (m : ModuleArea) (tp rp dp : MappedPagesH)
    (hm : env.module = some m) (hal : address_is_page_aligned m.start_address = true)
    (hpt : env.pageTableActive = false) :
    parse_nano_core env tp rp dp =
      (Except.error ("couldnt get kernels active page table", ⟨tp, rp, dp⟩), []) := by
  unfold parse_nano_core parse_nano_core_with
  rw [hm]
  simp [hal, hpt]

/-- Witness for claim C10 on the concrete inactive environment. -/
theorem claim_C10_witness :
    parse_nano_core envInactive tpW rpW dpW =
      (Except.error ("couldnt get kernels active page table", ⟨tpW, rpW, dpW⟩), []) :=
  claim_C10 envInactive mTextual tpW rpW dpW rfl (by decide) rfl

/-! ### Helper lemmas: splitting at the hash separator -/

/-- `splitOnChar` of a separator-free list is that list alone. -/
theorem splitOnChar_of_not_mem (sep : Char) (l : List Char) (h : sep ∉ l) :
    splitOnChar sep l = [l] := by
  induction l with
  | nil => rfl
  | cons c t ih =>
    have hc : ¬c = sep := fun hh => h (hh ▸ List.mem_cons_self c t)
    have ht : splitOnChar sep t = [t] := ih fun hm => h (List.mem_cons_of_mem c hm)
    simp [splitOnChar, hc, ht]

/-- `splitOnChar` around the first separator occurrence. -/
theorem splitOnChar_append (sep : Char) (l r : List Char) (h : sep ∉ l) :
    splitOnChar sep (l ++ sep :: r) = l :: splitOnChar sep r := by
  induction l with
  | nil => simp [splitOnChar]
  | cons c t ih =>
    have hc : ¬c = sep := fun hh => h (hh ▸ List.mem_cons_self c t)
    have ht := ih fun hm => h (List.mem_cons_of_mem c hm)
    simp [splitOnChar, hc, ht]

/-- `splitOnChar` yields one more piece than there are separators. -/
theorem splitOnChar_length (sep : Char) (l : List Char) :
    (splitOnChar sep l).length = l.count sep + 1 := by
  induction l with
  | nil => rfl
  | cons c t ih =>
    by_cases hc : c = sep
    · subst hc
      simp [splitOnChar, ih, List.count_cons]
    · rcases hsp : splitOnChar sep t with _ | ⟨p, ps⟩
      · rw [hsp] at ih
        simp at ih
      · rw [hsp] at ih
        simp at ih
        simp [splitOnChar, hc, hsp, List.count_cons]
        omega

/-- A name field with two or more `'#'` characters fails the split. -/
theorem splitNameHash_multi (s : List Char) (h2 : 2 ≤ s.count '#') :
    splitNameHash s =
      Except.error
        "parse_nano_core_symbol_file(): Name column had multiple # characters, expected only one # as the hash separator!" := by
  have hlen : 3 ≤ (splitOnChar '#' s).length := by
    rw [splitOnChar_length]
    omega
  rcases hsp : splitOnChar '#' s with _ | ⟨a, _ | ⟨b, _ | ⟨c, t⟩⟩⟩ <;>
    rw [hsp] at hlen <;> simp at hlen
  unfold splitNameHash
  rw [hsp]

/-! ### Claims C6 and C7 -/

/-- Counterexample to claim C6 as stated: on the size field `abc` (no `0x`
prefix, not decimal) the source drops the first two characters
unconditionally and parses `c` as hexadecimal 12, whereas parsing it \"as
hexadecimal with the `0x` prefix stripped\" yields 0xabc = 2748; the two
interpretations disagree, so the claim misdescribes the fallback. -/
theorem claim_C6_counterexample :
    parseSecSize "abc".data = some 12 ∧
    parseSecSizeSpec "abc".data = some 2748 ∧
    parseSecSize "abc".data ≠ parseSecSizeSpec "abc".data := by decide

/-- Claim C6 as amended: the size column is parsed first as decimal; if that
fails, the field's FIRST TWO CHARACTERS are removed unconditionally (which
coincides with stripping a `0x` prefix exactly when the field starts with
`0x`; a field shorter than two characters fails) and the remainder is parsed
as hexadecimal; an entry whose size field parses under neither
interpretation makes the parse fail with the size-column error (which the
surrounding parser returns together with the three page handles, see C1). -/
theorem claim_C6 (tp rp dp : MappedPagesH) (tndx rndx dndx bndx : Nat)
    (c0 c1 c2 c3 c4 c5 c6 : List Char) (rest : List Char) (nh : String)
    (hs : Option String) (v w off : Nat) (c7 : List Char)
    (hname : splitNameHash c7 = Except.ok (nh, hs))
    (hv : fromStrRadix 16 c1 = some v) :
    (fromStrRadix 10 c2 = some w → parseSecSize c2 = some w) ∧
    (c2 = '0' :: 'x' :: rest → parseSecSize c2 = parseSecSizeSpec c2) ∧
    (parseSecSize c2 = none →
      parseSymbolCols tp rp dp tndx rndx dndx bndx [c0, c1, c2, c3, c4, c5, c6, c7] =
        Except.error "parse_nano_core_symbol_file(): couldnt parse size column") ∧
    (parseSecSize c2 = some w → fromStrRadix 10 c6 = some tndx →
      tp.offset_of_address v = some off →
      parseSymbolCols tp rp dp tndx rndx dndx bndx [c0, c1, c2, c3, c4, c5, c6, c7] =
        Except.ok (LineStep.insert
          ⟨SectionType.Text, nh, hs, tp, off, v, w, true⟩)) := by
  refine ⟨?_, ?_, ?_, ?_⟩
  · intro hd
    simp [parseSecSize, hd]
  · intro hc2
    subst hc2
    cases hd : fromStrRadix 10 ('0' :: 'x' :: rest) <;>
      simp [parseSecSize, parseSecSizeSpec, hd]
  · intro hnone
    simp [parseSymbolCols, hname, hv, hnone]
  · intro hsome hndx hoff
    simp [parseSymbolCols, hname, hv, hsome, hndx, hoff]

/-- Witness for the amended claim C6: the field `zz40` fails both
interpretations, producing the size-column error; the field `0x40` parses as
64 and the entry is admitted into `.text`. -/
theorem claim_C6_witness :
    parseSymbolCols tpW rpW dpW 1 2 3 4
        ["0:".data, "1000".data, "zzzz".data, "F".data, "G".data, "D".data, "1".data,
          "nm".data] =
      Except.error "parse_nano_core_symbol_file(): couldnt parse size column" ∧
    parseSymbolCols tpW rpW dpW 1 2 3 4
        ["0:".data, "1000".data, "0x40".data, "F".data, "G".data, "D".data, "1".data,
          "nm".data] =
      Except.ok (LineStep.insert
        ⟨SectionType.Text, "nm", none, tpW, 0, 4096, 64, true⟩) :=
  ⟨(claim_C6 tpW rpW dpW 1 2 3 4 "0:".data "1000".data "zzzz".data "F".data "G".data
      "D".data "1".data [] "nm" none 4096 0 0 "nm".data (by decide) (by decide)).2.2.1
     (by decide),
   (claim_C6 tpW rpW dpW 1 2 3 4 "0:".data "1000".data "0x40".data "F".data "G".data
      "D".data "1".data [] "nm" none 4096 64 0 "nm".data (by decide) (by decide)).2.2.2
     (by decide) (by decide) (by decide)⟩

/-- Claim C7: the 7th (name) field is partitioned on the first `'#'`: with
no `'#'` the whole field is the demangled name and there is no hash; with
exactly one `'#'` the left part is the demangled name and the right part the
hash; with more than one `'#'` the split — and hence the symbol-line parse —
fails with the multiple-hash error. -/
theorem claim_C7 (s l r : List Char) :
    (s.count '#' = 0 → splitNameHash s = Except.ok (String.mk s, none)) ∧
    ('#' ∉ l → '#' ∉ r → s = l ++ '#' :: r →
      splitNameHash s = Except.ok (String.mk l, some (String.mk r))) ∧
    (2 ≤ s.count '#' →
      splitNameHash s =
        Except.error
          "parse_nano_core_symbol_file(): Name column had multiple # characters, expected only one # as the hash separator!") ∧
    (∀ (tp rp dp : MappedPagesH) (tndx rndx dndx bndx : Nat)
        (c0 c1 c2 c3 c4 c5 c6 : List Char), 2 ≤ s.count '#' →
      parseSymbolCols tp rp dp tndx rndx dndx bndx [c0, c1, c2, c3, c4, c5, c6, s] =
        Except.error
          "parse_nano_core_symbol_file(): Name column had multiple # characters, expected only one # as the hash separator!") := by
  refine ⟨?_, ?_, splitNameHash_multi s, ?_⟩
  · intro h0
    have hnm : '#' ∉ s := by
      rw [← List.count_eq_zero]
      exact h0
    unfold splitNameHash
    rw [splitOnChar_of_not_mem _ _ hnm]
  · intro hl hr hs
    subst hs
    unfold splitNameHash
    rw [splitOnChar_append _ _ _ hl, splitOnChar_of_not_mem _ _ hr]
  · intro tp rp dp tndx rndx dndx bndx c0 c1 c2 c3 c4 c5 c6 h2
    simp [parseSymbolCols, splitNameHash_multi s h2]

/-- Witness for claim C7 on the examples of the claim:
`foo::bar::baz#abcd1234` splits into the demangled name and the hash, and
`foo#a#b` fails. -/
theorem claim_C7_witness :
    splitNameHash "foo::bar::baz#abcd1234".data =
      Except.ok ("foo::bar::baz", some "abcd1234") ∧
    splitNameHash "foo#a#b".data =
      Except.error
        "parse_nano_core_symbol_file(): Name column had multiple # characters, expected only one # as the hash separator!" := by
  constructor
  · simpa using
      (claim_C7 "foo::bar::baz#abcd1234".data "foo::bar::baz".data "abcd1234".data).2.1
        (by decide) (by decide) (by decide)
  · exact (claim_C7 "foo#a#b".data [] []).2.2.1 (by decide)

/-! ### Helper lemmas: section ids -/

/-- In ELF mode the ids handed out from counter `c0` onward are the
consecutive range starting at `c0`: unmatched entries consume no id. -/
theorem buildBinSections_keys (dem : String → String × Option String)
    (tp rp dp : MappedPagesH) (a b c d : Nat) :
    ∀ (entries : List ElfSymEntry) (secs0 : List (Nat × LoadedSection)) (c0 : Nat)
      (secs : List (Nat × LoadedSection)),
      buildBinSections dem tp rp dp a b c d entries secs0 c0 = Except.ok secs →
      ∃ k, secs.map Prod.fst = secs0.map Prod.fst ++ List.range' c0 k := by
  intro entries
  induction entries with
  | nil =>
    intro secs0 c0 secs h
    refine ⟨0, ?_⟩
    unfold buildBinSections at h
    cases h
    simp
  | cons e rest ih =>
    intro secs0 c0 secs h
    unfold buildBinSections at h
    dsimp only at h
    repeat' split at h
    all_goals first
    | exact absurd h (by simp)
    | exact ih secs0 c0 secs h
    | (obtain ⟨k, hk⟩ := ih _ (c0 + 1) secs h
       refine ⟨k + 1, ?_⟩
       rw [hk]
       simp [List.range'])

/-- In textual mode the ids of the accumulated sections are strictly
increasing: every admitted line bumps the counter, so later insertions use
strictly larger keys. -/
theorem parseSymbolLines_chain (tp rp dp : MappedPagesH) (a b c d : Nat) :
    ∀ (lines : List (List Char)) (secs0 : List (Nat × LoadedSection)) (c0 : Nat)
      (secs : List (Nat × LoadedSection)),
      parseSymbolLines tp rp dp a b c d lines secs0 c0 = Except.ok secs →
      (∀ k ∈ secs0.map Prod.fst, k < c0) →
      List.Chain' (· < ·) (secs0.map Prod.fst) →
      List.Chain' (· < ·) (secs.map Prod.fst) := by
  intro lines
  induction lines with
  | nil =>
    intro secs0 c0 secs h _ hchain
    unfold parseSymbolLines at h
    cases h
    exact hchain
  | cons line rest ih =>
    intro secs0 c0 secs h hb hchain
    unfold parseSymbolLines at h
    repeat' split at h
    all_goals first
    | exact absurd h (by simp)
    | exact ih secs0 c0 secs h hb hchain
    | exact ih secs0 (c0 + 1) secs h (fun k hk => Nat.lt_succ_of_lt (hb k hk)) hchain
    | (refine ih _ (c0 + 1) secs h ?_ ?_
       · intro k hk
         simp only [List.map_append, List.mem_append] at hk
         rcases hk with hk | hk
         · exact Nat.lt_succ_of_lt (hb k hk)
         · simp at hk
           omega
       · rw [List.map_append]
         rw [List.chain'_append]
         refine ⟨hchain, by simp, ?_⟩
         intro x hx y hy
         simp at hy
         subst hy
         exact hb x (List.mem_of_mem_getLast? hx))

/-! ### Claims C8 and C9 -/

set_option maxRecDepth 100000 in
/-- Counterexample to claim C8 as stated: `cexElf` has a non-empty `.text`
PROGBITS section (index 1) whose flags 22 = `ALLOC | EXECINSTR | SHF_MERGE`
are NOT exactly `ALLOC | EXECINSTR`, yet the parse succeeds, because the
source compares the flags only after masking them with
`ALLOC | WRITE | EXECINSTR`. -/
theorem claim_C8_counterexample :
    (cexElf.sections.get? 1).map (fun s => (s.name, s.flags)) =
      some (Except.ok ".text", 22) ∧
    (22 : Nat) ≠ SHF_ALLOC ||| SHF_EXECINSTR ∧
    (parse_nano_core_binary envElf [] mTextual tpW rpW dpW 0).toOption.map
        (fun cr => cr.sections) = some [] := by decide

/-- Claim C8 as amended: for every non-empty section named `.text`,
`.data`, `.rodata`, or `.bss` of the matching type, the parse fails with the
wrong-flags error exactly when the flags RESTRICTED TO
`ALLOC | WRITE | EXECINSTR` differ from `ALLOC|EXECINSTR`, `ALLOC|WRITE`,
`ALLOC`, and `ALLOC|WRITE` respectively (so flag bits outside the mask are
ignored, and in particular a `.text` section lacking `EXECINSTR` fails);
empty sections are skipped silently; and a section-scan error surfaces from
`parse_nano_core_binary` together with the three page handles. -/
theorem claim_C8 (sec : ElfSection) (shndx : Nat) (rest : List (Nat × ElfSection))
    (t r d b : Option Nat) :
    (sec.shType = Except.ok ShType.progBits → sec.size ≠ 0 →
      sec.name = Except.ok ".text" →
      sec.flags &&& (SHF_ALLOC ||| SHF_WRITE ||| SHF_EXECINSTR) ≠
        SHF_ALLOC ||| SHF_EXECINSTR →
      scanSections ((shndx, sec) :: rest) (t, r, d, b) =
        Except.error ".text section had wrong flags!") ∧
    (sec.shType = Except.ok ShType.progBits → sec.size ≠ 0 →
      sec.name = Except.ok ".data" →
      sec.flags &&& (SHF_ALLOC ||| SHF_WRITE ||| SHF_EXECINSTR) ≠
        SHF_ALLOC ||| SHF_WRITE →
      scanSections ((shndx, sec) :: rest) (t, r, d, b) =
        Except.error ".data section had wrong flags!") ∧
    (sec.shType = Except.ok ShType.progBits → sec.size ≠ 0 →
      sec.name = Except.ok ".rodata" →
      sec.flags &&& (SHF_ALLOC ||| SHF_WRITE ||| SHF_EXECINSTR) ≠ SHF_ALLOC →
      scanSections ((shndx, sec) :: rest) (t, r, d, b) =
        Except.error ".rodata section had wrong flags!") ∧
    (sec.shType = Except.ok ShType.noBits → sec.size ≠ 0 →
      sec.name = Except.ok ".bss" →
      sec.flags &&& (SHF_ALLOC ||| SHF_WRITE ||| SHF_EXECINSTR) ≠
        SHF_ALLOC ||| SHF_WRITE →
      scanSections ((shndx, sec) :: rest) (t, r, d, b) =
        Except.error ".bss section had wrong flags!") ∧
    (sec.shType = Except.ok ShType.progBits → sec.size ≠ 0 →
      sec.name = Except.ok ".text" →
      sec.flags &&& (SHF_ALLOC ||| SHF_WRITE ||| SHF_EXECINSTR) =
        SHF_ALLOC ||| SHF_EXECINSTR →
      scanSections ((shndx, sec) :: rest) (t, r, d, b) =
        scanSections rest (some shndx, r, d, b)) ∧
    ((sec.shType = Except.ok ShType.progBits ∨ sec.shType = Except.ok ShType.noBits) →
      sec.size = 0 →
      scanSections ((shndx, sec) :: rest) (t, r, d, b) = scanSections rest (t, r, d, b)) ∧
    (∀ (env : ParseEnv) (bytes : List UInt8) (m : ModuleArea)
        (tp rp dp : MappedPagesH) (sz : Nat) (f : ElfFile) (e : String),
      sz ≤ bytes.length → env.elfParse = Except.ok f →
      (∃ tab, symtabOf f = Except.ok tab) →
      scanSections f.sections.enum (none, none, none, none) = Except.error e →
      parse_nano_core_binary env bytes m tp rp dp sz =
        Except.error (e, ⟨tp, rp, dp⟩)) := by
  refine ⟨?_, ?_, ?_, ?_, ?_, ?_, ?_⟩
  · intro hty hsz hname hflags
    simp [scanSections, hty, hsz, hname, hflags]
  · intro hty hsz hname hflags
    simp [scanSections, hty, hsz, hname, hflags]
  · intro hty hsz hname hflags
    simp [scanSections, hty, hsz, hname, hflags]
  · intro hty hsz hname hflags
    simp [scanSections, hty, hsz, hname, hflags]
  · intro hty hsz hname hflags
    simp [scanSections, hty, hsz, hname, hflags]
  · rintro (hty | hty) hsz <;> simp [scanSections, hty, hsz]
  · intro env bytes m tp rp dp sz f e hsz helf htab hscan
    obtain ⟨tab, htab⟩ := htab
    unfold parse_nano_core_binary
    rw [if_pos hsz, helf]
    dsimp only
    rw [htab]
    dsimp only
    rw [hscan]

/-- Witness for the amended claim C8 at concrete sections: a `.text` section
with flags `ALLOC | WRITE` (no `EXECINSTR`) fails the scan; one with flags
`ALLOC | EXECINSTR | SHF_MERGE` is accepted and its index recorded; an empty
`.text` section is skipped; and the failing scan surfaces from
`parse_nano_core_binary` with the page handles. -/
theorem claim_C8_witness :
    scanSections [(1, ⟨Except.ok ShType.progBits, 8, 3, Except.ok ".text",
        Except.ok ElfSectionData.otherData⟩)] (none, none, none, none) =
      Except.error ".text section had wrong flags!" ∧
    scanSections [(1, ⟨Except.ok ShType.progBits, 8, 22, Except.ok ".text",
        Except.ok ElfSectionData.otherData⟩)] (none, none, none, none) =
      scanSections [] (some 1, none, none, none) ∧
    scanSections [(1, ⟨Except.ok ShType.progBits, 0, 3, Except.ok ".text",
        Except.ok ElfSectionData.otherData⟩)] (none, none, none, none) =
      scanSections [] (none, none, none, none) ∧
    parse_nano_core_binary
        { envTextual with
            elfParse := Except.ok ⟨[⟨Except.ok ShType.symTab, 1, 0, Except.ok ".symtab",
              Except.ok (ElfSectionData.symbolTable64 [])⟩,
              ⟨Except.ok ShType.progBits, 8, 3, Except.ok ".text",
                Except.ok ElfSectionData.otherData⟩]⟩ }
        [] mTextual tpW rpW dpW 0 =
      Except.error (".text section had wrong flags!", ⟨tpW, rpW, dpW⟩) :=
  ⟨(claim_C8 ⟨Except.ok ShType.progBits, 8, 3, Except.ok ".text",
      Except.ok ElfSectionData.otherData⟩ 1 [] none none none none).1 rfl (by decide) rfl
     (by decide),
   (claim_C8 ⟨Except.ok ShType.progBits, 8, 22, Except.ok ".text",
      Except.ok ElfSectionData.otherData⟩ 1 [] none none none none).2.2.2.2.1 rfl
     (by decide) rfl (by decide),
   (claim_C8 ⟨Except.ok ShType.progBits, 0, 3, Except.ok ".text",
      Except.ok ElfSectionData.otherData⟩ 1 [] none none none none).2.2.2.2.2.1
     (Or.inl rfl) rfl,
   (claim_C8 ⟨Except.ok ShType.progBits, 8, 3, Except.ok ".text",
      Except.ok ElfSectionData.otherData⟩ 1 [] none none none
      none).2.2.2.2.2.2
     _ [] mTextual tpW rpW dpW 0 _ ".text section had wrong flags!" (by decide) rfl
     ⟨[], by decide⟩ (by decide)⟩

set_option maxRecDepth 200000 in
/-- Counterexample to claim C9 as stated: parsing the textual input
`c9bytes` succeeds with exactly one section, but that section's id is 1, not
0 — the entry with numeric `Ndx` 9 (matching none of the four sections)
consumed id 0 without inserting anything — so the map's keys are not
`0 .. N-1`. -/
theorem claim_C9_counterexample :
    (parse_nano_core_symbol_file envTextual c9bytes mTextual tpW rpW dpW
        c9bytes.length).toOption.map (fun cr => cr.sections.map Prod.fst) =
      some [1] ∧
    ([1] : List Nat) ≠ List.range 1 := by decide

/-- Claim C9 as amended: ids are assigned by a monotonic counter starting at
0 in both modes, but only ELF mode guarantees keys exactly `0 .. N-1` (its
counter advances only on insertion); in textual mode every admitted
symbol-table line — including lines whose numeric `Ndx` matches none of the
four sections and which insert nothing — advances the counter, so the keys
are strictly increasing in insertion order but may skip values. -/
theorem claim_C9 (dem : String → String × Option String) (tp rp dp : MappedPagesH)
    (a b c d : Nat) (entries : List ElfSymEntry) (lines : List (List Char))
    (secs secs2 : List (Nat × LoadedSection)) :
    (buildBinSections dem tp rp dp a b c d entries [] 0 = Except.ok secs →
      secs.map Prod.fst = List.range secs.length) ∧
    (parseSymbolLines tp rp dp a b c d lines [] 0 = Except.ok secs2 →
      List.Chain' (· < ·) (secs2.map Prod.fst)) := by
  constructor
  · intro h
    obtain ⟨k, hk⟩ := buildBinSections_keys dem tp rp dp a b c d entries [] 0 secs h
    simp only [List.map_nil, List.nil_append] at hk
    have hkl : secs.length = k := by
      have hlen := congrArg List.length hk
      simpa using hlen
    rw [hk, hkl, List.range_eq_range']
  · intro h
    exact parseSymbolLines_chain tp rp dp a b c d lines [] 0 secs2 h (by simp) (by simp)

/-- Witness for the amended claim C9: a one-entry ELF symbol table yields
keys `[0] = range 1`, and the two-line textual symbol table of the
counterexample yields the strictly increasing keys `[1]`. -/
theorem claim_C9_witness :
    ([(0, (⟨SectionType.Text, "my_func", none, tpW, 0, 4096, 16, true⟩ : LoadedSection))].map
        Prod.fst = List.range
        [(0, (⟨SectionType.Text, "my_func", none, tpW, 0, 4096, 16, true⟩ : LoadedSection))].length) ∧
    List.Chain' (· < ·)
      ([(1, (⟨SectionType.Text, "kept", none, tpW, 0, 4096, 10, true⟩ : LoadedSection))].map
        Prod.fst) :=
  ⟨(claim_C9 (fun s => (s, none)) tpW rpW dpW 1 2 3 4
      [⟨Except.ok SymBinding.global, Except.ok SymType.func, 4096, 16, 1,
        Except.ok "my_func"⟩]
      ["0: 1000 10 F G D 9 skipped".data, "1: 1000 10 F G D 1 kept".data]
      [(0, ⟨SectionType.Text, "my_func", none, tpW, 0, 4096, 16, true⟩)]
      [(1, ⟨SectionType.Text, "kept", none, tpW, 0, 4096, 10, true⟩)]).1
     (by decide),
   (claim_C9 (fun s => (s, none)) tpW rpW dpW 1 2 3 4
      [⟨Except.ok SymBinding.global, Except.ok SymType.func, 4096, 16, 1,
        Except.ok "my_func"⟩]
      ["0: 1000 10 F G D 9 skipped".data, "1: 1000 10 F G D 1 kept".data]
      [(0, ⟨SectionType.Text, "my_func", none, tpW, 0, 4096, 16, true⟩)]
      [(1, ⟨SectionType.Text, "kept", none, tpW, 0, 4096, 10, true⟩)]).2
     (by decide)⟩

end Theseus
